import Mathlib

/-!
Verification of the room/voting subsystem of `backend/main.py`.

The persistent store (MongoDB accessed through motor) is modelled as two
in-memory lists kept in insertion ("natural") order; `find_one` returns the
first document matching a filter and `update_one` rewrites the first matching
document.  HTTP errors raised by the handlers are modelled with `Except`:
`.error` corresponds to an `HTTPException` being raised before any write or
broadcast happened on that path.  Timestamps are modelled as naturals, ids and
pins as strings, exactly as the source keeps them (uuid strings / pin strings).
-/

namespace DJJukebox

/-- `db.collection.find_one(filter)`: first document matching the filter, in
natural (insertion) order. -/
def findOne (l : List α) (p : α → Bool) : Option α :=
  l.find? p

/-- `db.collection.update_one(filter, update)`: rewrite the first document
matching the filter, leaving the rest of the collection untouched. -/
def updateOne (l : List α) (p : α → Bool) (f : α → α) : List α :=
  match l with
  | [] => []
  | x :: xs => if p x then f x :: xs else x :: updateOne xs p f

/-- Pydantic model `SongRequest` (main.py lines 49-62).  Field defaults mirror
the pydantic defaults: `votes = 0`, `voted_by = []`, `status = "pending"`,
`submitter_name = "Guest"`, `submitter_type = "guest"`. -/
structure SongRequest where
  id : String
  room_id : String
  youtube_video_id : String
  title : String
  thumbnail : String
  youtube_url : String
  submitter_name : String := "Guest"
  submitter_type : String := "guest"
  votes : Int := 0
  voted_by : List String := []
  status : String := "pending"
  created_at : Nat
deriving Repr, DecidableEq

/-- Pydantic model `Room` (main.py lines 72-79). -/
structure Room where
  id : String
  pin : String
  dj_id : String
  dj_email : String
  active : Bool := true
  created_at : Nat
deriving Repr, DecidableEq

/-- Pydantic model `User` (main.py lines 81-86), restricted to the fields the
room handlers read. -/
structure User where
  id : String
  email : String
deriving Repr, DecidableEq

/-- The two collections the room subsystem touches. -/
structure DB where
  rooms : List Room
  song_requests : List SongRequest
deriving Repr, DecidableEq

/-- The HTTPException status codes the room handlers raise: 404 / 403. -/
inductive Err
  | NotFound
  | Forbidden
deriving Repr, DecidableEq

/-- One `manager.broadcast(pin, {"type": t, ...})` call: the pin it targeted
and the `type` field of the message. -/
structure Event where
  pin : String
  etype : String
deriving Repr, DecidableEq

instance {ε α : Type _} [DecidableEq ε] [DecidableEq α] : DecidableEq (Except ε α) := by
  intro a b
  cases a <;> cases b
  case error.error e f => exact decidable_of_iff (e = f) ⟨by intro h; rw [h], by intro h; cases h; rfl⟩
  case error.ok _ _ => exact isFalse (by intro h; cases h)
  case ok.error _ _ => exact isFalse (by intro h; cases h)
  case ok.ok x y => exact decidable_of_iff (x = y) ⟨by intro h; rw [h], by intro h; cases h; rfl⟩

/-- `vote_song` (main.py lines 205-241).  Reads the song, then issues one
`update_one`:

* toggle-off (`session_id in voted_by`): `$set votes := votes - 1` (the value
  read), `$pull` the session id from `voted_by` (removes every occurrence);
* toggle-on: `$inc votes by (votes + 1)` — i.e. the stored field becomes
  `stored + (read + 1)` — and `$push` the session id onto `voted_by`.

Afterwards it re-reads the song, looks the room up by the song's `room_id`,
and broadcasts `song_voted` only when the room is found.  Returns the
re-read song. -/
def vote_song (st : DB) (song_id : String) (session_id : String) :
    Except Err (DB × List Event × Option SongRequest) :=
  match findOne st.song_requests (fun s => s.id == song_id) with
  | none => .error .NotFound
  | some song =>
    let votes := song.votes
    let voted_by := song.voted_by
    let reqs :=
      if voted_by.contains session_id then
        updateOne st.song_requests (fun s => s.id == song_id)
          (fun s => { s with votes := votes - 1,
                             voted_by := s.voted_by.filter (fun v => v != session_id) })
      else
        updateOne st.song_requests (fun s => s.id == song_id)
          (fun s => { s with votes := s.votes + (votes + 1),
                             voted_by := s.voted_by ++ [session_id] })
    let st' : DB := { st with song_requests := reqs }
    let updated_song := findOne reqs (fun s => s.id == song_id)
    let events :=
      match findOne st.rooms (fun r => r.id == song.room_id) with
      | some room => [⟨room.pin, "song_voted"⟩]
      | none => ([] : List Event)
    .ok (st', events, updated_song)

/-- Run `vote_song` on the same song for each session id in turn, keeping only
the evolving store (the sequential-call pattern of the spec's properties). -/
def vote_seq (st : DB) (song_id : String) (ssids : List String) : Except Err DB :=
  match ssids with
  | [] => .ok st
  | v :: vs =>
    match vote_song st song_id v with
    | .error e => .error e
    | .ok (st', _, _) => vote_seq st' song_id vs

/-- The spec's vote-ledger invariant: the vote count equals the size of the
voter set. -/
def voteInv (s : SongRequest) : Prop :=
  s.votes = (s.voted_by.length : Int)

instance (s : SongRequest) : Decidable (voteInv s) := by
  unfold voteInv; infer_instance

/-- A stored song with one existing vote, used as the failing input for the
vote-count claims. -/
def song_a : SongRequest :=
  { id := "s1", room_id := "r1", youtube_video_id := "v", title := "t",
    thumbnail := "th", youtube_url := "u", votes := 1, voted_by := ["a"],
    created_at := 0 }

/-- Store holding just `song_a` (no rooms, so `vote_song` broadcasts nothing). -/
def st_v : DB := { rooms := [], song_requests := [song_a] }

/-- What `song_a` becomes after `"b"` toggles on: the `$inc` by `votes + 1`
lands the count at `1 + (1 + 1) = 3`, not `2`. -/
def song_a3 : SongRequest := { song_a with votes := 3, voted_by := ["a", "b"] }

/-- C1: the claim says a toggle-on vote raises the persisted count by exactly 1
over its value at the read.  On the stored song with `votes = 1`,
`voted_by = ["a"]`, a vote by the fresh identity `"b"` drives the count to 3
(the handler `$inc`s by `votes + 1` instead of setting `votes + 1`), so the
count rises by 2, not 1.  The voter set is extended as claimed. -/
theorem C1_vote_toggle_on_overcounts :
    vote_song st_v "s1" "b" =
      .ok ({ st_v with song_requests := [song_a3] }, [], some song_a3) ∧
    song_a3.votes ≠ song_a.votes + 1 := by
  decide

/-- C2: the claim says voting twice with the same identity restores count and
voter set.  Starting from `song_a` (`votes = 1`, `voted_by = ["a"]`), voter
`"b"` toggles on (count becomes 3) then off (count set to `3 - 1 = 2`): the
voter set returns to `["a"]` but the count ends at 2, not the original 1. -/
theorem C2_vote_toggle_not_involutive :
    vote_seq st_v "s1" ["b", "b"] =
      .ok { st_v with song_requests := [{ song_a with votes := 2 }] } ∧
    ({ song_a with votes := 2 } : SongRequest) ≠ song_a := by
  decide

/-- A freshly created song request: pydantic defaults `votes = 0`,
`voted_by = []`, `status = "pending"` (main.py lines 59-61). -/
def song_fresh : SongRequest :=
  { id := "s1", room_id := "r1", youtube_video_id := "v", title := "t",
    thumbnail := "th", youtube_url := "u", created_at := 0 }

/-- Store holding just the fresh song. -/
def st_fresh : DB := { rooms := [], song_requests := [song_fresh] }

/-- The fresh song after votes by `"a"` then `"b"`: the second toggle-on
`$inc`s by `1 + 1`, leaving `votes = 3` against a voter set of size 2. -/
def song_ab : SongRequest := { song_fresh with votes := 3, voted_by := ["a", "b"] }

/-- C3: the vote count = voter-set size invariant holds at creation
(`0 = |∅|`) but is not preserved by `vote_song`: after sequential votes by
`"a"` and then `"b"` on a freshly created song, the store holds
`votes = 3` with a voter set of size 2. -/
theorem C3_vote_invariant_not_preserved :
    voteInv song_fresh ∧
    vote_seq st_fresh "s1" ["a", "b"] =
      .ok { st_fresh with song_requests := [song_ab] } ∧
    ¬ voteInv song_ab := by
  decide

/-! ## Broadcast hub (`ConnectionManager`, main.py lines 96-118)

The `active_connections` dict (pin → list of WebSocket objects) is modelled as
an association list in insertion order; WebSocket objects are opaque handles
(`Nat`).  Python `dict` membership / indexing / deletion become lookup /
per-key rewrite / key removal on the association list. -/

/-- In-memory registry `pin → connected sockets`. -/
structure Hub where
  active_connections : List (String × List Nat)
deriving Repr, DecidableEq

/-- `room_pin in self.active_connections` plus `self.active_connections[room_pin]`. -/
def Hub.lookup (h : Hub) (pin : String) : Option (List Nat) :=
  (h.active_connections.find? (fun kv => kv.1 == pin)).map Prod.snd

/-- `self.active_connections[room_pin] = conns` on an existing key. -/
def Hub.setEntry (h : Hub) (pin : String) (conns : List Nat) : Hub :=
  ⟨h.active_connections.map (fun kv => if kv.1 == pin then (kv.1, conns) else kv)⟩

/-- `del self.active_connections[room_pin]`. -/
def Hub.delEntry (h : Hub) (pin : String) : Hub :=
  ⟨h.active_connections.filter (fun kv => kv.1 != pin)⟩

/-- `ConnectionManager.connect` (minus the transport accept): create the entry
if the pin is new, then append the socket. -/
def Hub.connect (h : Hub) (pin : String) (ws : Nat) : Hub :=
  match h.lookup pin with
  | none => ⟨h.active_connections ++ [(pin, [ws])]⟩
  | some conns => h.setEntry pin (conns ++ [ws])

/-- `ConnectionManager.disconnect` (main.py lines 106-110).  If the pin has no
entry, nothing happens.  Otherwise Python runs `list.remove(websocket)`, which
deletes the first occurrence but raises `ValueError` when the socket is absent
(modelled as `none`); when the remaining list is empty the entry is deleted. -/
def Hub.disconnect (h : Hub) (pin : String) (ws : Nat) : Option Hub :=
  match h.lookup pin with
  | none => some h
  | some conns =>
    if conns.contains ws then
      let conns' := conns.erase ws
      if conns'.isEmpty then some (h.delEntry pin)
      else some (h.setEntry pin conns')
    else none

/-- `ConnectionManager.broadcast` (main.py lines 112-118).  Unknown pins get no
sends; otherwise every registered socket is attempted in order.  `send_ok`
says whether the `send_json` to a given socket succeeds; a `False` is the
`except: pass` path.  The returned log records every attempt and its outcome —
the function is total, so no failure reaches the caller. -/
def Hub.broadcast (h : Hub) (pin : String) (send_ok : Nat → Bool) :
    List (Nat × Bool) :=
  match h.lookup pin with
  | none => []
  | some conns => conns.map (fun c => (c, send_ok c))

/-- C5 counterexample: with two sockets registered under `"1234"`, removing
socket 1 and then calling `disconnect` for it again hits
`list.remove` on a list that no longer contains it, raising `ValueError`
(`none`) — the second call is not a no-op. -/
theorem C5_disconnect_second_call_raises :
    Hub.disconnect ⟨[("1234", [1, 2])]⟩ "1234" 1 = some ⟨[("1234", [2])]⟩ ∧
    Hub.disconnect ⟨[("1234", [2])]⟩ "1234" 1 = none := by
  decide

/-- C5 (amended): `disconnect` is a no-op without error when the pin has no
entry (in particular after the listener group emptied and was deleted); when
the socket is registered and is the last one, it is removed and the pin's
entry is deleted; but a repeated `disconnect` while other listeners keep the
pin's entry alive raises `ValueError`. -/
theorem C5_disconnect_behaviour :
    (∀ (h : Hub) (pin : String) (ws : Nat),
        h.lookup pin = none → h.disconnect pin ws = some h) ∧
    (∀ (h : Hub) (pin : String) (ws : Nat) (conns : List Nat),
        h.lookup pin = some conns → conns.contains ws = true →
        (conns.erase ws).isEmpty = true →
        h.disconnect pin ws = some (h.delEntry pin)) ∧
    (∀ (h : Hub) (pin : String) (ws : Nat) (conns : List Nat),
        h.lookup pin = some conns → conns.contains ws = false →
        h.disconnect pin ws = none) := by
  refine ⟨?_, ?_, ?_⟩
  · intro h pin ws hl
    simp [Hub.disconnect, hl]
  · intro h pin ws conns hl hmem hemp
    simp at hmem hemp
    simp [Hub.disconnect, hl, hmem, hemp]
  · intro h pin ws conns hl hmem
    simp at hmem
    simp [Hub.disconnect, hl, hmem]

/-- C5 witness: the three amended branches at concrete hubs — unknown pin is a
no-op, removing the last listener deletes the `"1234"` entry, and a repeat
removal while socket 2 still holds the entry raises. -/
theorem C5_disconnect_behaviour_witness :
    Hub.disconnect ⟨[]⟩ "9999" 7 = some ⟨[]⟩ ∧
    Hub.disconnect ⟨[("1234", [5])]⟩ "1234" 5 = some (Hub.delEntry ⟨[("1234", [5])]⟩ "1234") ∧
    Hub.disconnect ⟨[("1234", [2])]⟩ "1234" 9 = none :=
  ⟨C5_disconnect_behaviour.1 ⟨[]⟩ "9999" 7 rfl,
   C5_disconnect_behaviour.2.1 ⟨[("1234", [5])]⟩ "1234" 5 [5] rfl rfl rfl,
   C5_disconnect_behaviour.2.2 ⟨[("1234", [2])]⟩ "1234" 9 [2] rfl rfl⟩

/-- C8: `broadcast` attempts delivery to every socket registered under the
pin — the attempted sockets are exactly the pin's registered list, whatever
the per-socket success pattern `send_ok` is, so one failing send (handled by
`except: pass`) never stops the loop; and the function is total, so no error
propagates to the caller. -/
theorem C8_broadcast_attempts_all (h : Hub) (pin : String) (send_ok : Nat → Bool) :
    (h.broadcast pin send_ok).map Prod.fst = (h.lookup pin).getD [] := by
  unfold Hub.broadcast
  cases h.lookup pin with
  | none => simp
  | some conns =>
    simp only [Option.getD_some]
    induction conns with
    | nil => simp
    | cons c cs ih => simpa using ih

/-! ## Room lifecycle handlers -/

/-- `get_room` (main.py lines 375-380): first room matching
`{"pin": pin, "active": True}`, else 404. -/
def get_room (st : DB) (pin : String) : Except Err Room :=
  match findOne st.rooms (fun r => r.pin == pin && r.active) with
  | none => .error .NotFound
  | some room => .ok room

/-- `close_room` (main.py lines 354-373): finds the *active* room for the pin
(404 if none), checks the caller is its DJ (403 otherwise), then issues
`update_one({"pin": pin}, {"$set": {"active": False}})` — note the update
filter matches on the pin alone, so it rewrites the first room with that pin
in natural order, active or not — and broadcasts `room_closed` to the pin. -/
def close_room (st : DB) (pin : String) (current_user_id : String) :
    Except Err (DB × List Event) :=
  match findOne st.rooms (fun r => r.pin == pin && r.active) with
  | none => .error .NotFound
  | some room =>
    if room.dj_id != current_user_id then .error .Forbidden
    else
      let rooms' := updateOne st.rooms (fun r => r.pin == pin)
        (fun r => { r with active := false })
      .ok ({ st with rooms := rooms' }, [⟨pin, "room_closed"⟩])

/-- A closed room holding pin `"1234"`, inserted before the active one. -/
def room_old : Room :=
  { id := "rA", pin := "1234", dj_id := "d0", dj_email := "a@x", active := false,
    created_at := 0 }

/-- The active room with the reused pin `"1234"`, owned by DJ `"d1"`. -/
def room_act : Room :=
  { id := "rB", pin := "1234", dj_id := "d1", dj_email := "b@x", active := true,
    created_at := 1 }

/-- Store where a closed room precedes the active room sharing its pin. -/
def st_close : DB := { rooms := [room_old, room_act], song_requests := [] }

/-- C4: when a closed room with the same pin precedes the active one,
`close_room` by the owner reports success and broadcasts `room_closed`, but
its `update_one` (filtered on the pin alone) rewrites the earlier closed
record, so the store is left unchanged — the active room keeps
`active = True` and `get_room` still returns it instead of 404. -/
theorem C4_close_room_updates_wrong_record :
    close_room st_close "1234" "d1" = .ok (st_close, [⟨"1234", "room_closed"⟩]) ∧
    get_room st_close "1234" = .ok room_act := by
  decide

/-! ## Song status update -/

/-- `update_song_status` (main.py lines 243-269): loads the song (404 if
absent), loads the room by the song's `room_id`, and raises 403 when the room
is missing *or* the caller is not its DJ (`if not room or room['dj_id'] !=
current_user.id`).  Only then does it write the new status and broadcast
`song_status_changed`; an `.error` therefore means no write and no broadcast
happened. -/
def update_song_status (st : DB) (song_id : String) (status : String)
    (current_user_id : String) : Except Err (DB × List Event × Option SongRequest) :=
  match findOne st.song_requests (fun s => s.id == song_id) with
  | none => .error .NotFound
  | some song =>
    match findOne st.rooms (fun r => r.id == song.room_id) with
    | none => .error .Forbidden
    | some room =>
      if room.dj_id != current_user_id then .error .Forbidden
      else
        let reqs := updateOne st.song_requests (fun s => s.id == song_id)
          (fun s => { s with status := status })
        let st' : DB := { st with song_requests := reqs }
        let updated_song := findOne reqs (fun s => s.id == song_id)
        .ok (st', [⟨room.pin, "song_status_changed"⟩], updated_song)

/-- C10: whenever the song is found but no room with the song's `room_id`
exists, `update_song_status` fails with Forbidden (403) — not NotFound — and,
the error being raised before the write and the broadcast, the song's status
is untouched and nothing is broadcast. -/
theorem C10_status_update_orphan_song_forbidden
    (st : DB) (song_id status uid : String) (song : SongRequest)
    (hsong : findOne st.song_requests (fun s => s.id == song_id) = some song)
    (hroom : findOne st.rooms (fun r => r.id == song.room_id) = none) :
    update_song_status st song_id status uid = .error .Forbidden := by
  simp [update_song_status, hsong, hroom]

/-- C10 witness: a store holding one song whose `room_id` matches no room. -/
theorem C10_status_update_orphan_song_forbidden_witness :
    update_song_status { rooms := [], song_requests := [song_a] } "s1" "playing" "d1"
      = .error .Forbidden :=
  C10_status_update_orphan_song_forbidden
    { rooms := [], song_requests := [song_a] } "s1" "playing" "d1" song_a rfl rfl

/-! ## Live-channel receive loop (`websocket_endpoint`, main.py lines 409-429)

Each loop iteration receives a text frame and runs `json.loads` on it; the
parse outcome is the `Option Json` input below (`none` models the parser
raising `JSONDecodeError`).  The only exception the handler catches is
`WebSocketDisconnect` — that is the sole path on which
`manager.disconnect` runs — so any other exception ends the handler
abnormally with the listener still registered. -/

/-- Values `json.loads` can produce. -/
inductive Json
  | null
  | bool (b : Bool)
  | num (n : Int)
  | str (s : String)
  | arr (xs : List Json)
  | obj (kvs : List (String × Json))

/-- Python `dict.get(k)` on the parsed object (`None` when absent). -/
def jget (kvs : List (String × Json)) (k : String) : Option Json :=
  (kvs.find? (fun kv => kv.1 == k)).map Prod.snd

/-- Python `message.get('type') == 'user_joined'`: true exactly when the key
holds that string. -/
def isUserJoined : Option Json → Bool
  | some (Json.str s) => s == "user_joined"
  | _ => false

/-- Outcome of one iteration of the receive loop. -/
inductive StepOutcome
  | ignored
  | broadcastUserJoined (user : Json)
  | crash (exc : String)

/-- One iteration of the `while True` receive loop.  A failed parse raises
`JSONDecodeError`; a parse result that is not a dict makes `message.get`
raise `AttributeError`; a dict whose `type` is `"user_joined"` triggers the
`user_joined` broadcast with `message.get('user', 'Guest')`; every other dict
falls through the `if` silently. -/
def receive_step (parsed : Option Json) : StepOutcome :=
  match parsed with
  | none => .crash "JSONDecodeError"
  | some (Json.obj kvs) =>
    if isUserJoined (jget kvs "type") then
      .broadcastUserJoined ((jget kvs "user").getD (Json.str "Guest"))
    else
      .ignored
  | some _ => .crash "AttributeError"

/-- C6 counterexample: a non-JSON text frame makes `json.loads` raise; the
exception is not the caught `WebSocketDisconnect`, so the iteration is not a
silent ignore — the handler terminates abnormally (and, `manager.disconnect`
living only on the `WebSocketDisconnect` path, the listener is never
deregistered). -/
theorem C6_non_json_crashes_loop :
    receive_step none = StepOutcome.crash "JSONDecodeError" ∧
    receive_step none ≠ StepOutcome.ignored := by
  refine ⟨rfl, ?_⟩
  intro h
  simp [receive_step] at h

/-- C6 (amended): an inbound frame that parses to a JSON object not
recognized as the user-presence announcement is silently ignored — no reply,
no crash, no deregistration; but a frame that fails to parse raises an
uncaught `JSONDecodeError` (and a non-object JSON value an uncaught
`AttributeError`), abnormally ending the receive loop without running
`manager.disconnect`. -/
theorem C6_receive_loop_dispatch :
    (∀ kvs, isUserJoined (jget kvs "type") = false →
      receive_step (some (Json.obj kvs)) = StepOutcome.ignored) ∧
    receive_step none = StepOutcome.crash "JSONDecodeError" ∧
    (∀ s, receive_step (some (Json.str s)) = StepOutcome.crash "AttributeError") := by
  refine ⟨?_, rfl, fun s => rfl⟩
  intro kvs hk
  simp [receive_step, hk]

/-- C6 witness: the empty JSON object (no `type` key) is ignored. -/
theorem C6_receive_loop_dispatch_witness :
    receive_step (some (Json.obj [])) = StepOutcome.ignored :=
  C6_receive_loop_dispatch.1 [] rfl

/-! ## Song listing (`get_room_songs`, main.py lines 271-282) -/

/-- The `sort("created_at", 1)` key order. -/
def leCreated (a b : SongRequest) : Prop :=
  a.created_at ≤ b.created_at

instance : DecidableRel leCreated := fun a b => Nat.decLe a.created_at b.created_at

instance : IsTotal SongRequest leCreated :=
  ⟨fun a b => Nat.le_total a.created_at b.created_at⟩

instance : IsTrans SongRequest leCreated :=
  ⟨fun _ _ _ => Nat.le_trans⟩

/-- `get_room_songs` (main.py lines 271-282): loads the active room for the
pin (404 otherwise), then returns the room's songs sorted ascending by
`created_at` — truncated by `.to_list(1000)` to the first 1000 documents. -/
def get_room_songs (st : DB) (pin : String) : Except Err (List SongRequest) :=
  match findOne st.rooms (fun r => r.pin == pin && r.active) with
  | none => .error .NotFound
  | some room =>
    .ok ((List.insertionSort leCreated
      (st.song_requests.filter (fun s => s.room_id == room.id))).take 1000)

/-- C7 (amended): for an active room, `get_room_songs` returns the room's
songs in non-decreasing `created_at` order, truncated to the first 1000; when
the room has at most 1000 songs this is exactly all of them (a permutation of
the filtered collection). -/
theorem C7_get_room_songs_sorted (st : DB) (pin : String) (room : Room)
    (hroom : findOne st.rooms (fun r => r.pin == pin && r.active) = some room) :
    get_room_songs st pin =
      .ok ((List.insertionSort leCreated
        (st.song_requests.filter (fun s => s.room_id == room.id))).take 1000) ∧
    ((List.insertionSort leCreated
        (st.song_requests.filter (fun s => s.room_id == room.id))).take 1000).Sorted leCreated ∧
    ((st.song_requests.filter (fun s => s.room_id == room.id)).length ≤ 1000 →
      List.Perm
        ((List.insertionSort leCreated
          (st.song_requests.filter (fun s => s.room_id == room.id))).take 1000)
        (st.song_requests.filter (fun s => s.room_id == room.id))) := by
  refine ⟨by simp [get_room_songs, hroom], ?_, ?_⟩
  · exact List.Pairwise.sublist (List.take_sublist _ _)
      (List.sorted_insertionSort leCreated _)
  · intro hlen
    have hperm := List.perm_insertionSort leCreated
      (st.song_requests.filter (fun s => s.room_id == room.id))
    rw [List.take_of_length_le (by rw [hperm.length_eq]; exact hlen)]
    exact hperm

/-- The active room used by the C7 witness and counterexample stores. -/
def room_w7 : Room :=
  { id := "r7", pin := "4821", dj_id := "d7", dj_email := "c@x", active := true,
    created_at := 0 }

/-- Two songs for `room_w7` submitted out of creation order. -/
def st_w7 : DB :=
  { rooms := [room_w7],
    song_requests :=
      [{ song_fresh with id := "s2", room_id := "r7", created_at := 9 },
       { song_fresh with id := "s3", room_id := "r7", created_at := 4 }] }

/-- C7 witness: on a concrete store whose two songs arrived out of order, the
listing is the sorted pair. -/
theorem C7_get_room_songs_sorted_witness :
    get_room_songs st_w7 "4821" =
      .ok ((List.insertionSort leCreated
        (st_w7.song_requests.filter (fun s => s.room_id == room_w7.id))).take 1000) ∧
    get_room_songs st_w7 "4821" =
      .ok [{ song_fresh with id := "s3", room_id := "r7", created_at := 4 },
           { song_fresh with id := "s2", room_id := "r7", created_at := 9 }] :=
  ⟨(C7_get_room_songs_sorted st_w7 "4821" room_w7 rfl).1, by decide⟩

/-- 1001 songs for `room_w7`, already in creation order. -/
def many_songs : List SongRequest :=
  (List.range 1001).map (fun i => { song_fresh with room_id := "r7", created_at := i })

/-- A store whose single active room owns 1001 songs. -/
def st_big : DB := { rooms := [room_w7], song_requests := many_songs }

set_option maxRecDepth 100000 in
/-- C7 counterexample: with 1001 songs submitted to the room, the handler's
`.to_list(1000)` drops one — the listing does not contain all of the room's
song requests. -/
theorem C7_truncates_at_1000 :
    (st_big.song_requests.filter (fun s => s.room_id == "r7")).length = 1001 ∧
    (get_room_songs st_big "4821").toOption.map List.length = some 1000 := by
  constructor
  · rfl
  · rfl

/-! ## Room creation (`create_room`, main.py lines 382-405)

`random.randint(0, 9)` drawn four times per candidate pin is modelled by
feeding `create_room` a list of digit quadruples — the stream of draws the
retry loop consumes.  The loop takes the first candidate whose pin collides
with no *active* room; a `none` result means the supplied stream ran out
(the Python loop would keep drawing). -/

/-- One candidate pin's four random digits. -/
abbrev Digits := Fin 10 × Fin 10 × Fin 10 × Fin 10

/-- `generate_room_pin` (main.py lines 122-123): the concatenation of the four
digits' decimal strings. -/
def generate_room_pin (d : Digits) : String :=
  toString d.1.val ++ toString d.2.1.val ++ toString d.2.2.1.val ++ toString d.2.2.2.val

/-- A generated pin is a 4-character string. -/
theorem generate_room_pin_length (d : Digits) : (generate_room_pin d).length = 4 := by
  have h10 : ∀ k : Fin 10, (toString k.val).length = 1 := by decide
  simp [generate_room_pin, h10]

/-- `create_room` (main.py lines 382-405): if the caller already owns an
active room, return it with nothing written; otherwise take generated pins
until one matches no active room, build the room (`active = True`) and insert
it at the end of the collection. -/
def create_room (st : DB) (current_user : User) (draws : List Digits)
    (fresh_id : String) (now : Nat) : Option (Room × DB) :=
  match findOne st.rooms (fun r => r.dj_id == current_user.id && r.active) with
  | some existing_room => some (existing_room, st)
  | none =>
    match draws.find? (fun d =>
        (findOne st.rooms (fun r => r.pin == generate_room_pin d && r.active)).isNone) with
    | none => none
    | some d =>
      let room : Room :=
        { id := fresh_id, pin := generate_room_pin d, dj_id := current_user.id,
          dj_email := current_user.email, active := true, created_at := now }
      some (room, { st with rooms := st.rooms ++ [room] })

/-- C9: `create_room` is idempotent per owner.  First conjunct: when the
caller already owns an active room, that room is returned and the store is
untouched.  Second conjunct: when no such room exists and the call succeeds,
the new room's 4-digit pin differs from the pin of every currently active
room, the caller then owns exactly one active room, and every subsequent
`create_room` by the same caller returns that same room with the store again
untouched. -/
theorem C9_create_room_idempotent :
    (∀ (st : DB) (u : User) (draws : List Digits) (fid : String) (now : Nat) (r : Room),
        findOne st.rooms (fun rm => rm.dj_id == u.id && rm.active) = some r →
        create_room st u draws fid now = some (r, st)) ∧
    (∀ (st : DB) (u : User) (draws : List Digits) (fid : String) (now : Nat)
        (r : Room) (st' : DB),
        findOne st.rooms (fun rm => rm.dj_id == u.id && rm.active) = none →
        create_room st u draws fid now = some (r, st') →
        r.pin.length = 4 ∧
        (∀ rm, rm ∈ st.rooms → rm.active = true → r.pin ≠ rm.pin) ∧
        (st'.rooms.filter (fun rm => rm.dj_id == u.id && rm.active)).length = 1 ∧
        (∀ (draws2 : List Digits) (fid2 : String) (now2 : Nat),
          create_room st' u draws2 fid2 now2 = some (r, st'))) := by
  constructor
  · intro st u draws fid now r hfound
    simp [create_room, hfound]
  · intro st u draws fid now r st' hnone hcr
    simp only [create_room, hnone] at hcr
    cases hfind : draws.find? (fun d =>
        (findOne st.rooms (fun rm => rm.pin == generate_room_pin d && rm.active)).isNone) with
    | none => rw [hfind] at hcr; cases hcr
    | some d =>
      rw [hfind] at hcr
      have hpin := List.find?_some hfind
      rw [Option.isNone_iff_eq_none] at hpin
      have hnopin := List.find?_eq_none.mp hpin
      have hnodj := List.find?_eq_none.mp hnone
      cases hcr
      refine ⟨generate_room_pin_length d, ?_, ?_, ?_⟩
      · intro rm hrm hact heq
        have h1 := hnopin rm hrm
        simp [hact] at h1
        simp at heq
        exact h1 heq.symm
      · have hfilter_nil :
            st.rooms.filter (fun rm => rm.dj_id == u.id && rm.active) = [] :=
          List.filter_eq_nil_iff.mpr (fun rm hrm => by simpa using hnodj rm hrm)
        simp [List.filter_append, hfilter_nil]
      · intro draws2 fid2 now2
        have hfound' :
            findOne (st.rooms ++
              [{ id := fid, pin := generate_room_pin d, dj_id := u.id,
                 dj_email := u.email, active := true, created_at := now }])
              (fun rm => rm.dj_id == u.id && rm.active) =
            some { id := fid, pin := generate_room_pin d, dj_id := u.id,
                   dj_email := u.email, active := true, created_at := now } := by
          unfold findOne at hnone ⊢
          rw [List.find?_append, hnone]
          simp
        simp [create_room, hfound']

/-- The DJ used by the C9 witness. -/
def dj_w9 : User := { id := "d9", email := "dj@x" }

/-- The single random draw the C9 witness consumes: four zeros, pin `"0000"`. -/
def d_w9 : Digits := (0, 0, 0, 0)

/-- The room the C9 witness's first `create_room` call builds: the first
candidate pin `"0000"` collides with nothing in the empty store. -/
def room_w9 : Room :=
  { id := "rid9", pin := "0000", dj_id := "d9", dj_email := "dj@x", active := true,
    created_at := 5 }

/-- The store after that first call. -/
def st_w9 : DB := { rooms := [room_w9], song_requests := [] }

/-- C9 witness: starting from the empty store, the fresh-create branch yields
a store with exactly one active room owned by `"d9"`, and a repeated call —
even with no random draws left — returns that room and store unchanged. -/
theorem C9_create_room_idempotent_witness :
    create_room st_w9 dj_w9 [] "other" 11 = some (room_w9, st_w9) ∧
    (st_w9.rooms.filter (fun rm => rm.dj_id == dj_w9.id && rm.active)).length = 1 ∧
    room_w9.pin.length = 4 :=
  have h := C9_create_room_idempotent.2 { rooms := [], song_requests := [] }
    dj_w9 [d_w9] "rid9" 5 room_w9 st_w9 rfl rfl
  ⟨h.2.2.2 [] "other" 11, h.2.2.1, h.1⟩

end DJJukebox
